import Mathlib

/-!
Shallow embedding of the pay-backend order / credential service.

The repository contains four near-identical Express applications:
the main file app.js (boolean paid flag, lowdb), part_000 (same shape),
and part_001 which holds three further variants; of those, the first
(lines 1-173, below namespace Lowdb) carries the full order state
machine (status PENDING/PAID, stored token, paid_at, alias resolution
in the payment callback, session exchange, cookie fallback in the
content gate), and the third (lines 328-568, below namespace Sqlite)
is the better-sqlite3 rewrite with an explicit idempotency guard on
payment-notify.  The app.js variant is embedded below namespace Simple.

External collaborators are made explicit parameters: the JWT library
is modelled by the claim set a signed token carries (jwt.sign is
deterministic in claims, secret and issuance time, so a token value is
identified with its claims plus the issuance timestamp), verification
in the content gate is an abstract function from token strings to
optional claim sets, the content blob store is an abstract function
from post identifiers to optional html bodies, and the clock is an
explicit Nat argument wherever the source calls Date.now or new Date.
JavaScript truthiness on optional strings / numbers is modelled by
truthyS / truthyI.
-/

namespace Pay

/-- Claim set of a signed token as produced by issueToken in the
stateful variants: jwt.sign of postId and trade_no with a 24h expiry;
iat records the issuance instant, so tokens minted at distinct times
are distinct values, exactly as two jwt.sign calls at distinct
timestamps yield distinct strings. -/
structure Jwt where
  postId : String
  trade_no : String
  iat : Nat
deriving DecidableEq, Repr

/-- issueToken(postId, trade_no) from part_001 line 38: sign the claim
pair with the shared secret at the current instant. -/
def issueToken (postId trade_no : String) (now : Nat) : Jwt :=
  { postId := postId, trade_no := trade_no, iat := now }

/-- One row of the orders store in the stateful variants (part_001
lines 54-62 / sqlite schema lines 357-366). -/
structure Order where
  trade_no : String
  post_id : String
  amount : Option Int
  status : String
  token : Option Jwt
  created_at : Nat
  paid_at : Option Nat
deriving DecidableEq, Repr

/-- The order store: db.data.orders (lowdb) or the orders table
(sqlite, trade_no UNIQUE). -/
structure DB where
  orders : List Order
deriving DecidableEq, Repr

/-- JavaScript truthiness of an optional string: undefined/null and
the empty string are falsy. -/
def truthyS : Option String → Bool
  | none => false
  | some s => !s.data.isEmpty

/-- JavaScript truthiness of an optional number: undefined/null and 0
are falsy. -/
def truthyI : Option Int → Bool
  | none => false
  | some v => v != 0

/-- JavaScript a || b || c || null over strings: first truthy
operand, else null. -/
def or3S (a b c : Option String) : Option String :=
  if truthyS a then a else if truthyS b then b else if truthyS c then c else none

/-- JavaScript a || b || c || null over numbers. -/
def or3I (a b c : Option Int) : Option Int :=
  if truthyI a then a else if truthyI b then b else if truthyI c then c else none

/-- JavaScript a || b || c || d || null over strings. -/
def or4S (a b c d : Option String) : Option String :=
  if truthyS a then a else or3S b c d

/-- The merged body/query fields a payment callback may carry
(part_001 lines 73-76 and 403-413). -/
structure NotifyData where
  trade_no : Option String := none
  out_trade_no : Option String := none
  transaction_id : Option String := none
  tradeNo : Option String := none
  post_id : Option String := none
  post : Option String := none
  attach : Option String := none
  amount : Option Int := none
  total_fee : Option Int := none
  fee : Option Int := none
deriving DecidableEq, Repr

/-- Mutate the first element satisfying p, as findIndex followed by an
in-place field update does in the source. -/
def updateFirst {α : Type} (p : α → Bool) (f : α → α) : List α → List α
  | [] => []
  | x :: xs => if p x then f x :: xs else x :: updateFirst p f xs

/-- Response of create-order: 400 with an error, or ok with the fresh
trade_no. -/
inductive CreateResp
  | bad (error : String)
  | ok (trade_no : String)
deriving DecidableEq, Repr

/-- A plain-text HTTP response (payment-notify answers with
res.status(...).send(text) / res.send('OK')). -/
structure TextResp where
  code : Nat
  body : String
deriving DecidableEq, Repr

/-- JSON body of check-payment: either the 400 error or the polling
payload; absent JSON fields are none. -/
inductive CheckResp
  | badRequest (error : String)
  | payload (paid : Bool) (token : Option Jwt) (post_id : Option String)
deriving DecidableEq, Repr

/-- Response of exchange-session: 400, or a redirect carrying the
Location and the value of the Set-Cookie header if one was written
(none = no Set-Cookie header on the response). -/
inductive ExchResp
  | badRequest (msg : String)
  | redirect (location : String) (setCookie : Option (Option Jwt))
deriving DecidableEq, Repr

/-- Response of the content gate get-post. -/
inductive GetPostResp
  | ok (html : String)
  | unauthorized (error : String)
  | notFound (error : String)
deriving DecidableEq, Repr

/-- Claim set returned by jwt.verify in the content gate. -/
structure Claims where
  postId : String
  trade_no : String
deriving DecidableEq, Repr

/-- The parts of an inbound get-post request the handler can read:
the Authorization header, the Cookie header and the query string.
The query is carried so that independence from it is expressible. -/
structure Req where
  authorization : Option String := none
  cookie : Option String := none
  query : List (String × String) := []
deriving DecidableEq, Repr

/-- The record at index i of the store satisfies p (False when no such
record exists). -/
def entryHolds (db : DB) (i : Nat) (p : Order → Prop) : Prop :=
  match db.orders.get? i with
  | some o => p o
  | none => False

end Pay

namespace Pay
namespace Lowdb

/-! The first variant of part_001 (lines 1-173): lowdb store with the
PENDING/PAID status machine. -/

/-- POST /api/create-order, part_001 lines 49-65: require a truthy
post_id, default amount to 199, push a PENDING order with a null
token and null paid_at. trade_no generation (Date.now + nanoid) is an
input. -/
def createOrder (db : DB) (post_id : Option String) (amount : Option Int)
    (trade_no : String) (now : Nat) : DB × CreateResp :=
  match post_id with
  | some pid =>
    if pid.data.isEmpty then (db, .bad "post_id required")
    else
      ({ orders := db.orders ++ [{ trade_no := trade_no, post_id := pid,
                                   amount := some (amount.getD 199), status := "PENDING",
                                   token := none, created_at := now, paid_at := none }] },
       .ok trade_no)
  | none => (db, .bad "post_id required")

/-- data.trade_no || data.out_trade_no || data.transaction_id || null
(part_001 line 74). -/
def resolveTradeNo (d : NotifyData) : Option String :=
  or3S d.trade_no d.out_trade_no d.transaction_id

/-- data.post_id || data.post || data.attach || null (line 75). -/
def resolvePostId (d : NotifyData) : Option String :=
  or3S d.post_id d.post d.attach

/-- data.amount || data.total_fee || data.fee || null (line 76). -/
def resolveAmount (d : NotifyData) : Option Int :=
  or3I d.amount d.total_fee d.fee

/-- POST /api/payment-notify, part_001 lines 72-102: resolve the
aliased fields; 400 if trade identifier or item identifier is
missing; mint a token; if an order with that trade_no exists,
overwrite its status, token and paid_at (and amount when truthy),
otherwise push a fresh order directly in PAID status. -/
def paymentNotify (db : DB) (d : NotifyData) (now : Nat) : DB × TextResp :=
  match resolveTradeNo d, resolvePostId d with
  | some tn, some pid =>
    let amount := resolveAmount d
    let token := issueToken pid tn now
    if (db.orders.find? (fun o => o.trade_no == tn)).isSome then
      ({ orders := updateFirst (fun o => o.trade_no == tn)
           (fun o => { o with status := "PAID", token := some token, paid_at := some now,
                              amount := if truthyI amount then amount else o.amount })
           db.orders },
       { code := 200, body := "OK" })
    else
      ({ orders := db.orders ++ [{ trade_no := tn, post_id := pid, amount := amount,
                                   status := "PAID", token := some token,
                                   created_at := now, paid_at := some now }] },
       { code := 200, body := "OK" })
  | _, _ => (db, { code := 400, body := "missing trade_no or post_id" })

/-- GET /api/check-payment, part_001 lines 107-115: 400 on a falsy
trade_no; unknown order and non-PAID order both answer paid:false;
a PAID order answers paid:true with the stored token and post_id. -/
def checkPayment (db : DB) (trade_no : Option String) : CheckResp :=
  match trade_no with
  | none => .badRequest "trade_no required"
  | some tn =>
    if tn.data.isEmpty then .badRequest "trade_no required"
    else
      match db.orders.find? (fun o => o.trade_no == tn) with
      | none => .payload false none none
      | some row =>
        if row.status == "PAID" then .payload true row.token (some row.post_id)
        else .payload false none none

/-- GET /api/exchange-session, part_001 lines 121-135: 400 on falsy
parameters; look up the order matching BOTH trade_no and post_id; on
a miss or a non-PAID order redirect to SITE_URL/_pay/failed with no
Set-Cookie; otherwise write the stored token into the cookie and
redirect 302 to the article address. enc stands for
encodeURIComponent. -/
def exchangeSession (siteUrl : String) (enc : String → String) (db : DB)
    (trade_no post : Option String) : ExchResp :=
  match trade_no, post with
  | some tn, some p =>
    if tn.data.isEmpty || p.data.isEmpty then .badRequest "missing trade_no or post"
    else
      match db.orders.find? (fun o => o.trade_no == tn && o.post_id == p) with
      | some row =>
        if row.status == "PAID" then
          .redirect (siteUrl ++ "/post/" ++ enc p) (some row.token)
        else .redirect (siteUrl ++ "/_pay/failed") none
      | none => .redirect (siteUrl ++ "/_pay/failed") none
  | _, _ => .badRequest "missing trade_no or post"

/-- pre is a leading piece of s (char-list level). -/
def hasPre : List Char → List Char → Bool
  | [], _ => true
  | _, [] => false
  | a :: as, b :: bs => a == b && hasPre as bs

/-- Drop a leading piece, none when it does not lead. -/
def stripPre : List Char → List Char → Option (List Char)
  | [], s => some s
  | _, [] => none
  | a :: as, b :: bs => if a = b then stripPre as bs else none

/-- auth.split(' ')[1] after auth.startsWith('Bearer '): the characters
between the first and second space. -/
def bearerOf (auth : String) : Option String :=
  if hasPre "Bearer ".data auth.data then
    some (String.mk ((auth.data.drop 7).takeWhile (fun c => c ≠ ' ')))
  else none

/-- Scan for the regex (?:^|; )NAME=([^;]+): p2 and p1 are the two
previously consumed characters, a match may start at the beginning or
right after a semicolon-space, and the capture is the nonempty run of
non-semicolon characters after NAME=. -/
def cookieGo (needle : List Char) (p2 p1 : Option Char) : List Char → Option (List Char)
  | [] => none
  | a :: tail =>
    let atB : Bool := p1.isNone || (p2 == some ';' && p1 == some ' ')
    let here : Option (List Char) :=
      if atB then
        match stripPre needle (a :: tail) with
        | some rest =>
          let cap := rest.takeWhile (fun c => c ≠ ';')
          if cap.isEmpty then none else some cap
        | none => none
      else none
    match here with
    | some c => some c
    | none => cookieGo needle p1 (some a) tail

/-- cookies.match(new RegExp('(?:^|; )' + NAME + '=([^;]+)')) — the
captured cookie value, if any (part_001 lines 145-148). -/
def cookieLookup (name : String) (cookies : String) : Option String :=
  (cookieGo (name ++ "=").data none none cookies.data).map String.mk

/-- Token resolution of GET /api/get-post, part_001 lines 141-148:
prefer the Bearer header value when truthy, otherwise consult the
paid cookie; none when neither yields a truthy token. -/
def resolveToken (name : String) (r : Req) : Option String :=
  let bearer := bearerOf (r.authorization.getD "")
  if truthyS bearer then bearer
  else cookieLookup name (r.cookie.getD "")

/-- GET /api/get-post, part_001 lines 140-160: 401 no-token when no
credential resolves; verify the token (jwt.verify as an abstract
claims extractor — 401 invalid-or-expired on failure); fetch the blob
keyed by the verified postId claim from the content store (the
private_posts directory as an abstract key-to-html map); 404 when
absent. -/
def getPost (name : String) (verify : String → Option Claims)
    (store : String → Option String) (r : Req) : GetPostResp :=
  match resolveToken name r with
  | none => .unauthorized "no token"
  | some t =>
    match verify t with
    | none => .unauthorized "invalid or expired token"
    | some payload =>
      match store payload.postId with
      | none => .notFound "post not found"
      | some html => .ok html

/-- The two store-mutating operations of this variant; check-payment,
exchange-session, get-post and the admin listing never write. -/
inductive Step : DB → DB → Prop
  | create (db : DB) (post_id : Option String) (amount : Option Int)
      (trade_no : String) (now : Nat) :
      Step db (createOrder db post_id amount trade_no now).1
  | notify (db : DB) (d : NotifyData) (now : Nat) :
      Step db (paymentNotify db d now).1

/-- States reachable from the empty store by any sequence of
operations. -/
def Reachable (db : DB) : Prop :=
  Relation.ReflTransGen Step { orders := [] } db

end Lowdb

namespace Sqlite

/-! The third variant of part_001 (lines 328-568): better-sqlite3
store, trade_no UNIQUE; SELECT/UPDATE/INSERT keyed by trade_no. -/

/-- data.trade_no || data.out_trade_no || data.transaction_id ||
data.tradeNo || null (part_001 lines 405-410). -/
def resolveTradeNo (d : NotifyData) : Option String :=
  or4S d.trade_no d.out_trade_no d.transaction_id d.tradeNo

/-- data.post_id || data.post || data.attach || null (line 412). -/
def resolvePostId (d : NotifyData) : Option String :=
  or3S d.post_id d.post d.attach

/-- data.amount || data.fee || data.total_fee || null (line 413). -/
def resolveAmount (d : NotifyData) : Option Int :=
  or3I d.amount d.fee d.total_fee

/-- POST /api/payment-notify, part_001 lines 402-456: resolve aliases,
400 when a required field is missing; SELECT by trade_no; an order
already in PAID answers OK without touching the row (the idempotency
guard at line 428); a PENDING order is UPDATEd to PAID with a fresh
token, paid_at and the resolved amount; a missing order is INSERTed
directly in PAID. -/
def paymentNotify (db : DB) (d : NotifyData) (now : Nat) : DB × TextResp :=
  match resolveTradeNo d, resolvePostId d with
  | some tn, some pid =>
    let token := issueToken pid tn now
    match db.orders.find? (fun o => o.trade_no == tn) with
    | some row =>
      if row.status == "PAID" then (db, { code := 200, body := "OK" })
      else
        ({ orders := updateFirst (fun o => o.trade_no == tn)
             (fun o => { o with status := "PAID", token := some token,
                                paid_at := some now, amount := resolveAmount d })
             db.orders },
         { code := 200, body := "OK" })
    | none =>
      ({ orders := db.orders ++ [{ trade_no := tn, post_id := pid,
                                   amount := resolveAmount d, status := "PAID",
                                   token := some token, created_at := now,
                                   paid_at := some now }] },
       { code := 200, body := "OK" })
  | _, _ => (db, { code := 400, body := "missing required fields" })

end Sqlite

namespace Simple

/-! src/app.js (and, with the same write behaviour, part_000): lowdb
store whose rows use a boolean paid flag and no stored token. -/

/-- One row of the orders array in app.js (line 68). -/
structure OrderS where
  trade_no : String
  post_id : String
  amount : Int
  paid : Bool
deriving DecidableEq, Repr

/-- The app.js order store. -/
structure DBS where
  orders : List OrderS
deriving DecidableEq, Repr

/-- POST /api/create-order, app.js lines 63-71: require a truthy
post_id; push an unpaid order with amount || 0. -/
def createOrder (db : DBS) (post_id : Option String) (amount : Option Int)
    (trade_no : String) : DBS × CreateResp :=
  match post_id with
  | some pid =>
    if pid.data.isEmpty then (db, .bad "post_id required")
    else
      ({ orders := db.orders ++ [{ trade_no := trade_no, post_id := pid,
                                   amount := if truthyI amount then amount.getD 0 else 0,
                                   paid := false }] },
       .ok trade_no)
  | none => (db, .bad "post_id required")

/-- POST /api/payment-notify, app.js lines 74-86: 400 on a falsy
trade_no; 404 when no order carries that trade_no; otherwise set
paid, and overwrite amount and post_id with the notified values when
they are truthy. -/
def paymentNotify (db : DBS) (trade_no post_id : Option String) (amount : Option Int) :
    DBS × TextResp :=
  match trade_no with
  | none => (db, { code := 400, body := "trade_no required" })
  | some tn =>
    if tn.data.isEmpty then (db, { code := 400, body := "trade_no required" })
    else
      if (db.orders.find? (fun o => o.trade_no == tn)).isSome then
        ({ orders := updateFirst (fun o => o.trade_no == tn)
             (fun o => { o with paid := true,
                                amount := if truthyI amount then amount.getD o.amount
                                          else o.amount,
                                post_id := if truthyS post_id then post_id.getD o.post_id
                                           else o.post_id })
             db.orders },
         { code := 200, body := "OK" })
      else (db, { code := 404, body := "order not found" })

/-- GET /api/check-payment, app.js lines 89-100: a falsy or unknown
trade_no and an unpaid order all answer paid:false; a paid order
answers paid:true with a token freshly minted at query time. -/
def checkPayment (db : DBS) (trade_no : Option String) (now : Nat) : CheckResp :=
  match trade_no with
  | none => .payload false none none
  | some tn =>
    if tn.data.isEmpty then .payload false none none
    else
      match db.orders.find? (fun o => o.trade_no == tn) with
      | none => .payload false none none
      | some order =>
        if order.paid then
          .payload true (some (issueToken order.post_id order.trade_no now))
            (some order.post_id)
        else .payload false none none

end Simple

/-! Utility lemmas about the list combinators the handlers use. -/

theorem isEmpty_false {α : Type} {l : List α} (h : l ≠ []) : l.isEmpty = false := by
  cases l with
  | nil => exact absurd rfl h
  | cons a t => rfl

theorem or3S_isEmpty_false {a b c : Option String} {s : String}
    (h : or3S a b c = some s) : s.data.isEmpty = false := by
  unfold or3S at h
  split at h
  · next ht => rw [h] at ht; simpa [truthyS] using ht
  · split at h
    · next ht => rw [h] at ht; simpa [truthyS] using ht
    · split at h
      · next ht => rw [h] at ht; simpa [truthyS] using ht
      · exact absurd h (by simp)

theorem mem_updateFirst {α : Type} (p : α → Bool) (f : α → α) (l : List α) (y : α)
    (hy : y ∈ updateFirst p f l) : (∃ x, x ∈ l ∧ y = f x) ∨ y ∈ l := by
  induction l with
  | nil => simp [updateFirst] at hy
  | cons a t ih =>
    rw [updateFirst] at hy
    by_cases hp : p a
    · rw [if_pos hp] at hy
      rcases List.mem_cons.mp hy with h | h
      · exact Or.inl ⟨a, List.mem_cons_self a t, h⟩
      · exact Or.inr (List.mem_cons_of_mem a h)
    · rw [if_neg hp] at hy
      rcases List.mem_cons.mp hy with h | h
      · exact Or.inr (h ▸ List.mem_cons_self a t)
      · rcases ih h with ⟨x, hx, hyx⟩ | h2
        · exact Or.inl ⟨x, List.mem_cons_of_mem a hx, hyx⟩
        · exact Or.inr (List.mem_cons_of_mem a h2)

theorem updateFirst_get? {α : Type} (p : α → Bool) (f : α → α) (l : List α) (i : Nat)
    (x : α) (h : l.get? i = some x) :
    (updateFirst p f l).get? i = some x ∨ (updateFirst p f l).get? i = some (f x) := by
  induction l generalizing i with
  | nil => simp at h
  | cons a t ih =>
    cases i with
    | zero =>
      simp only [List.get?] at h
      rw [updateFirst]
      by_cases hp : p a
      · rw [if_pos hp]
        right
        simp only [List.get?]
        rw [Option.some.inj h]
      · rw [if_neg hp]
        left
        simpa using h
    | succ n =>
      simp only [List.get?] at h
      rw [updateFirst]
      by_cases hp : p a
      · rw [if_pos hp]
        left
        simpa using h
      · rw [if_neg hp]
        simpa using ih n h

theorem get?_append_left {α : Type} (l l' : List α) (i : Nat) (x : α)
    (h : l.get? i = some x) : (l ++ l').get? i = some x := by
  induction l generalizing i with
  | nil => simp at h
  | cons a t ih =>
    cases i with
    | zero => simpa using h
    | succ n =>
      simp only [List.get?] at h
      simpa using ih n h

theorem find?_append_none {α : Type} (p : α → Bool) (l : List α) (x : α)
    (h : l.find? p = none) :
    (l ++ [x]).find? p = if p x then some x else none := by
  induction l with
  | nil =>
    simp only [List.nil_append]
    by_cases hp : p x
    · rw [List.find?_cons_of_pos _ hp, if_pos hp]
    · rw [List.find?_cons_of_neg _ hp, if_neg hp]
      rfl
  | cons a t ih =>
    have ha : p a = false := by
      by_contra hc
      rw [List.find?_cons_of_pos _ (by simpa using hc)] at h
      exact Option.noConfusion h
    rw [List.find?_cons_of_neg _ (by simp [ha])] at h
    rw [List.cons_append, List.find?_cons_of_neg _ (by simp [ha])]
    exact ih h

theorem find?_updateFirst_self {α : Type} (p : α → Bool) (f : α → α) (l : List α)
    (x : α) (h : l.find? p = some x) (hf : p (f x) = true) :
    (updateFirst p f l).find? p = some (f x) := by
  induction l with
  | nil => simp at h
  | cons a t ih =>
    by_cases hp : p a
    · rw [List.find?_cons_of_pos _ hp] at h
      rw [updateFirst, if_pos hp, Option.some.inj h, List.find?_cons_of_pos _ hf]
    · rw [List.find?_cons_of_neg _ (by simp [hp])] at h
      rw [updateFirst, if_neg hp, List.find?_cons_of_neg _ (by simp [hp])]
      exact ih h

/-! Claim theorems. -/

/-- C1: for every content-gate request whose resolved token verifies
successfully, the content item fetched and returned is the one named
by the postId inside the verified token claims (found in the content
store or 404), and any other request whose credential resolves to the
same token — in particular one differing only in query parameters or
other headers — receives the identical response. -/
theorem C1_gate_item_from_verified_claims (name : String)
    (verify : String → Option Claims) (store : String → Option String)
    (r r2 : Req) (t : String) (c : Claims)
    (hr : Lowdb.resolveToken name r = some t)
    (hr2 : Lowdb.resolveToken name r2 = some t)
    (hv : verify t = some c) :
    Lowdb.getPost name verify store r =
      (match store c.postId with
       | none => GetPostResp.notFound "post not found"
       | some html => GetPostResp.ok html) ∧
    Lowdb.getPost name verify store r2 = Lowdb.getPost name verify store r := by
  unfold Lowdb.getPost
  rw [hr, hr2]
  dsimp only
  rw [hv]
  exact ⟨rfl, rfl⟩

/-- Witness for C1: a concrete verifier and store, and two requests
carrying the same bearer token but different query strings. -/
theorem C1_gate_item_from_verified_claims_witness :
    Lowdb.getPost "paid_token" (fun t => if t = "tok" then some ⟨"p1", "T"⟩ else none)
        (fun p => if p = "p1" then some "HTML-1" else none)
        { authorization := some "Bearer tok", query := [("post", "p2")] } =
      GetPostResp.ok "HTML-1" ∧
    Lowdb.getPost "paid_token" (fun t => if t = "tok" then some ⟨"p1", "T"⟩ else none)
        (fun p => if p = "p1" then some "HTML-1" else none)
        { authorization := some "Bearer tok", query := [] } =
      Lowdb.getPost "paid_token" (fun t => if t = "tok" then some ⟨"p1", "T"⟩ else none)
        (fun p => if p = "p1" then some "HTML-1" else none)
        { authorization := some "Bearer tok", query := [("post", "p2")] } := by
  have h := C1_gate_item_from_verified_claims "paid_token"
    (fun t => if t = "tok" then some ⟨"p1", "T"⟩ else none)
    (fun p => if p = "p1" then some "HTML-1" else none)
    { authorization := some "Bearer tok", query := [("post", "p2")] }
    { authorization := some "Bearer tok", query := [] }
    "tok" ⟨"p1", "T"⟩ (by decide) (by decide) (by decide)
  exact ⟨h.1.trans (by decide), h.2⟩

/-- Lookup of the paid cookie in an empty Cookie header yields
nothing. -/
theorem cookieLookup_empty (name : String) : Lowdb.cookieLookup name "" = none := by
  unfold Lowdb.cookieLookup
  have hd : String.data "" = [] := rfl
  rw [hd]
  rfl

/-- C8: credential resolution of the content gate: a truthy Bearer
header is used and the cookie is never consulted; with no
Authorization header the paid cookie is the source; with neither
credential the gate answers 401 no-token, whose body is observably
distinct from the 401 body answered when a resolved token fails
verification. -/
theorem C8_credential_resolution (name : String) (verify : String → Option Claims)
    (store : String → Option String) :
    (∀ r : Req, truthyS (Lowdb.bearerOf (r.authorization.getD "")) = true →
      Lowdb.resolveToken name r = Lowdb.bearerOf (r.authorization.getD "")) ∧
    (∀ r : Req, r.authorization = none →
      Lowdb.resolveToken name r = Lowdb.cookieLookup name (r.cookie.getD "")) ∧
    (∀ r : Req, r.authorization = none → r.cookie = none →
      Lowdb.getPost name verify store r = GetPostResp.unauthorized "no token") ∧
    GetPostResp.unauthorized "no token" ≠
      GetPostResp.unauthorized "invalid or expired token" ∧
    (∀ (r : Req) (t : String), Lowdb.resolveToken name r = some t → verify t = none →
      Lowdb.getPost name verify store r =
        GetPostResp.unauthorized "invalid or expired token") := by
  have hb : Lowdb.bearerOf "" = none := by decide
  refine ⟨?_, ?_, ?_, by decide, ?_⟩
  · intro r h
    unfold Lowdb.resolveToken
    rw [if_pos h]
  · intro r ha
    unfold Lowdb.resolveToken
    rw [ha]
    simp only [Option.getD, hb, truthyS, Bool.false_eq_true, if_false]
  · intro r ha hc
    have h0 : Lowdb.resolveToken name r = none := by
      unfold Lowdb.resolveToken
      rw [ha, hc]
      simp only [Option.getD, hb, truthyS, Bool.false_eq_true, if_false]
      exact cookieLookup_empty name
    unfold Lowdb.getPost
    rw [h0]
  · intro r t hrt hv
    unfold Lowdb.getPost
    rw [hrt]
    dsimp only
    rw [hv]

/-- Witness for C8: concrete requests exercising header preference,
cookie fallback, the no-token 401 and the invalid-token 401. -/
theorem C8_credential_resolution_witness :
    Lowdb.resolveToken "paid_token"
        { authorization := some "Bearer abc", cookie := some "paid_token=zzz" } =
      some "abc" ∧
    Lowdb.resolveToken "paid_token" { cookie := some "paid_token=zzz" } = some "zzz" ∧
    Lowdb.getPost "paid_token" (fun _ => none) (fun _ => none) {} =
      GetPostResp.unauthorized "no token" ∧
    GetPostResp.unauthorized "no token" ≠
      GetPostResp.unauthorized "invalid or expired token" ∧
    Lowdb.getPost "paid_token" (fun _ => none) (fun _ => none)
        { authorization := some "Bearer abc" } =
      GetPostResp.unauthorized "invalid or expired token" := by
  have h := C8_credential_resolution "paid_token" (fun _ => none) (fun _ => none)
  refine ⟨(h.1 _ (by decide)).trans (by decide), (h.2.1 _ rfl).trans (by decide),
    h.2.2.1 {} rfl rfl, h.2.2.2.1, h.2.2.2.2 _ "abc" (by decide) rfl⟩

/-- C5: session exchange succeeds exactly when some stored order
matches both the supplied trade_no and the supplied post identifier
and that order is PAID, in which case the response carries the
order's stored token in the session cookie and redirects to the
article address; a matched order that is not PAID, or no match on the
pair, redirects to the failure destination (no error status). -/
theorem C5_exchange_requires_pair_and_paid (siteUrl : String) (enc : String → String)
    (db : DB) (tn p : String) (htn : tn.data ≠ []) (hp : p.data ≠ []) :
    (∀ row, db.orders.find? (fun o => o.trade_no == tn && o.post_id == p) = some row →
      row.status = "PAID" →
      Lowdb.exchangeSession siteUrl enc db (some tn) (some p) =
        ExchResp.redirect (siteUrl ++ "/post/" ++ enc p) (some row.token)) ∧
    (∀ row, db.orders.find? (fun o => o.trade_no == tn && o.post_id == p) = some row →
      row.status ≠ "PAID" →
      Lowdb.exchangeSession siteUrl enc db (some tn) (some p) =
        ExchResp.redirect (siteUrl ++ "/_pay/failed") none) ∧
    (db.orders.find? (fun o => o.trade_no == tn && o.post_id == p) = none →
      Lowdb.exchangeSession siteUrl enc db (some tn) (some p) =
        ExchResp.redirect (siteUrl ++ "/_pay/failed") none) := by
  have he : (tn.data.isEmpty || p.data.isEmpty) = false := by
    rw [isEmpty_false htn, isEmpty_false hp]
    rfl
  have hne : ¬((tn.data.isEmpty || p.data.isEmpty) = true) := by
    rw [he]
    exact Bool.false_ne_true
  refine ⟨?_, ?_, ?_⟩
  · intro row hfind hs
    have hbe : (row.status == "PAID") = true := by
      rw [hs]
      decide
    unfold Lowdb.exchangeSession
    dsimp only
    rw [if_neg hne, hfind]
    dsimp only
    rw [if_pos hbe]
  · intro row hfind hs
    have hbe : ¬((row.status == "PAID") = true) := by
      rw [beq_eq_false_iff_ne.mpr hs]
      exact Bool.false_ne_true
    unfold Lowdb.exchangeSession
    dsimp only
    rw [if_neg hne, hfind]
    dsimp only
    rw [if_neg hbe]
  · intro hfind
    unfold Lowdb.exchangeSession
    dsimp only
    rw [if_neg hne, hfind]

/-- Witness for C5: a store holding the PAID order (T, p1) answers the
exchange with the cookie and the article redirect; the empty store
redirects to the failure destination. -/
theorem C5_exchange_requires_pair_and_paid_witness :
    Lowdb.exchangeSession "https://s" (fun s => s)
        { orders := [{ trade_no := "T", post_id := "p1", amount := some 199,
                       status := "PAID", token := some { postId := "p1", trade_no := "T", iat := 1 },
                       created_at := 0, paid_at := some 1 }] }
        (some "T") (some "p1") =
      ExchResp.redirect ("https://s" ++ "/post/" ++ "p1")
        (some (some { postId := "p1", trade_no := "T", iat := 1 })) ∧
    Lowdb.exchangeSession "https://s" (fun s => s) { orders := [] }
        (some "T") (some "p1") =
      ExchResp.redirect ("https://s" ++ "/_pay/failed") none := by
  constructor
  · exact (C5_exchange_requires_pair_and_paid "https://s" (fun s => s)
      { orders := [{ trade_no := "T", post_id := "p1", amount := some 199,
                     status := "PAID",
                     token := some { postId := "p1", trade_no := "T", iat := 1 },
                     created_at := 0, paid_at := some 1 }] }
      "T" "p1" (by decide) (by decide)).1
      { trade_no := "T", post_id := "p1", amount := some 199, status := "PAID",
        token := some { postId := "p1", trade_no := "T", iat := 1 },
        created_at := 0, paid_at := some 1 }
      (by decide) rfl
  · exact (C5_exchange_requires_pair_and_paid "https://s" (fun s => s) { orders := [] }
      "T" "p1" (by decide) (by decide)).2.2 rfl

/-- C9: on the failure path of session exchange (no order matching
both identifiers, or a matched order that is not PAID) the response
is the bare redirect to the failure destination, carrying no
Set-Cookie header. -/
theorem C9_failed_exchange_writes_no_cookie (siteUrl : String) (enc : String → String)
    (db : DB) (tn p : String) (htn : tn.data ≠ []) (hp : p.data ≠ [])
    (hfail : ∀ row,
      db.orders.find? (fun o => o.trade_no == tn && o.post_id == p) = some row →
      row.status ≠ "PAID") :
    Lowdb.exchangeSession siteUrl enc db (some tn) (some p) =
      ExchResp.redirect (siteUrl ++ "/_pay/failed") none := by
  have he : (tn.data.isEmpty || p.data.isEmpty) = false := by
    rw [isEmpty_false htn, isEmpty_false hp]
    rfl
  have hne : ¬((tn.data.isEmpty || p.data.isEmpty) = true) := by
    rw [he]
    exact Bool.false_ne_true
  unfold Lowdb.exchangeSession
  dsimp only
  rw [if_neg hne]
  cases hrow : db.orders.find? (fun o => o.trade_no == tn && o.post_id == p) with
  | none => rfl
  | some row =>
    have hbe : ¬((row.status == "PAID") = true) := by
      rw [beq_eq_false_iff_ne.mpr (hfail row hrow)]
      exact Bool.false_ne_true
    dsimp only
    rw [if_neg hbe]

/-- Witness for C9: exchanging against a store whose only order for
(T, p1) is still PENDING redirects to failure with no cookie. -/
theorem C9_failed_exchange_writes_no_cookie_witness :
    Lowdb.exchangeSession "https://s" (fun s => s)
        { orders := [{ trade_no := "T", post_id := "p1", amount := some 199,
                       status := "PENDING", token := none, created_at := 0,
                       paid_at := none }] }
        (some "T") (some "p1") =
      ExchResp.redirect ("https://s" ++ "/_pay/failed") none := by
  refine C9_failed_exchange_writes_no_cookie "https://s" (fun s => s) _ "T" "p1"
    (by decide) (by decide) ?_
  intro row hrow
  have : row = { trade_no := "T", post_id := "p1", amount := some 199,
                 status := "PENDING", token := none, created_at := 0,
                 paid_at := none } := by
    exact (Option.some.inj hrow).symm
  rw [this]
  decide

/-- C10: check-payment does not reveal order existence: an unknown
trade_no and a PENDING order with that trade_no produce exactly the
same body, paid:false with no token and no post_id. -/
theorem C10_unknown_pending_same_body (db db2 : DB) (tn : String)
    (htn : tn.data ≠ [])
    (h1 : db.orders.find? (fun o => o.trade_no == tn) = none)
    (row : Order) (h2 : db2.orders.find? (fun o => o.trade_no == tn) = some row)
    (hrow : row.status = "PENDING") :
    Lowdb.checkPayment db (some tn) = CheckResp.payload false none none ∧
    Lowdb.checkPayment db2 (some tn) = Lowdb.checkPayment db (some tn) := by
  have hne : ¬(tn.data.isEmpty = true) := by
    rw [isEmpty_false htn]
    exact Bool.false_ne_true
  have hbe : ¬((row.status == "PAID") = true) := by
    rw [hrow]
    decide
  constructor
  · unfold Lowdb.checkPayment
    dsimp only
    rw [if_neg hne, h1]
  · unfold Lowdb.checkPayment
    dsimp only
    rw [if_neg hne, h1, h2]
    dsimp only
    rw [if_neg hbe, if_neg hne]

/-- Witness for C10: the empty store and a store holding the PENDING
order T answer the poll for T with the same negative body. -/
theorem C10_unknown_pending_same_body_witness :
    Lowdb.checkPayment { orders := [] } (some "T") = CheckResp.payload false none none ∧
    Lowdb.checkPayment
        { orders := [{ trade_no := "T", post_id := "p1", amount := some 199,
                       status := "PENDING", token := none, created_at := 0,
                       paid_at := none }] }
        (some "T") =
      Lowdb.checkPayment { orders := [] } (some "T") :=
  C10_unknown_pending_same_body { orders := [] } _ "T" (by decide) rfl
    { trade_no := "T", post_id := "p1", amount := some 199, status := "PENDING",
      token := none, created_at := 0, paid_at := none }
    (by decide) rfl

/-- A single mutating operation preserves the token-iff-PAID
invariant of every stored order. -/
theorem step_keeps_token_iff_paid (a b : DB) (hs : Lowdb.Step a b)
    (ha : ∀ o ∈ a.orders, (o.token.isSome = true ↔ o.status = "PAID")) :
    ∀ o ∈ b.orders, (o.token.isSome = true ↔ o.status = "PAID") := by
  cases hs with
  | create pid amt tn now =>
    intro o ho
    unfold Lowdb.createOrder at ho
    cases pid with
    | none => exact ha o ho
    | some p =>
      dsimp only at ho
      by_cases hq : p.data.isEmpty = true
      · rw [if_pos hq] at ho
        exact ha o ho
      · rw [if_neg hq] at ho
        rcases List.mem_append.mp ho with h | h
        · exact ha o h
        · rw [List.mem_singleton] at h
          subst h
          simp
  | notify d now =>
    intro o ho
    unfold Lowdb.paymentNotify at ho
    cases htn : Lowdb.resolveTradeNo d with
    | none =>
      rw [htn] at ho
      exact ha o ho
    | some tn =>
      cases hpid : Lowdb.resolvePostId d with
      | none =>
        rw [htn, hpid] at ho
        exact ha o ho
      | some pid =>
        rw [htn, hpid] at ho
        dsimp only at ho
        by_cases hf : (a.orders.find? (fun o => o.trade_no == tn)).isSome = true
        · rw [if_pos hf] at ho
          rcases mem_updateFirst _ _ _ _ ho with ⟨x, hx, hfx⟩ | h
          · subst hfx
            simp
          · exact ha o h
        · rw [if_neg hf] at ho
          rcases List.mem_append.mp ho with h | h
          · exact ha o h
          · rw [List.mem_singleton] at h
            subst h
            simp

/-- C3: in every state reachable from the empty store by create-order
and payment-notify operations, an order's token is non-null exactly
when its status is PAID: create-order inserts PENDING rows with a
null token, and payment-notify stores a token precisely when it
stamps PAID. -/
theorem C3_token_iff_paid (db : DB) (h : Lowdb.Reachable db) :
    ∀ o ∈ db.orders, (o.token.isSome = true ↔ o.status = "PAID") := by
  unfold Lowdb.Reachable at h
  induction h with
  | refl =>
    intro o ho
    simp at ho
  | tail h1 h2 ih => exact step_keeps_token_iff_paid _ _ h2 ih

/-- Witness for C3: the freshly created PENDING order of a reachable
one-operation state satisfies the invariant. -/
theorem C3_token_iff_paid_witness :
    (({ trade_no := "T", post_id := "p1", amount := some 199, status := "PENDING",
        token := none, created_at := 0, paid_at := none } : Order).token.isSome = true ↔
      ({ trade_no := "T", post_id := "p1", amount := some 199, status := "PENDING",
         token := none, created_at := 0, paid_at := none } : Order).status = "PAID") :=
  C3_token_iff_paid (Lowdb.createOrder { orders := [] } (some "p1") none "T" 0).1
    (Relation.ReflTransGen.single
      (Lowdb.Step.create { orders := [] } (some "p1") none "T" 0))
    { trade_no := "T", post_id := "p1", amount := some 199, status := "PENDING",
      token := none, created_at := 0, paid_at := none }
    (by decide)

/-- One mutating operation never moves a stored order out of PAID and
never changes its trade_no. -/
theorem step_paid_stays (a b : DB) (hs : Lowdb.Step a b) (i : Nat) (o : Order)
    (hi : a.orders.get? i = some o) (hp : o.status = "PAID") :
    ∃ o2, b.orders.get? i = some o2 ∧ o2.status = "PAID" ∧ o2.trade_no = o.trade_no := by
  cases hs with
  | create pid amt tn now =>
    unfold Lowdb.createOrder
    cases pid with
    | none => exact ⟨o, hi, hp, rfl⟩
    | some p =>
      dsimp only
      by_cases hq : p.data.isEmpty = true
      · rw [if_pos hq]
        exact ⟨o, hi, hp, rfl⟩
      · rw [if_neg hq]
        exact ⟨o, get?_append_left _ _ i o hi, hp, rfl⟩
  | notify d now =>
    unfold Lowdb.paymentNotify
    cases htn : Lowdb.resolveTradeNo d with
    | none => exact ⟨o, hi, hp, rfl⟩
    | some tn =>
      cases hpid : Lowdb.resolvePostId d with
      | none => exact ⟨o, hi, hp, rfl⟩
      | some pid =>
        dsimp only
        by_cases hf : (a.orders.find? (fun o => o.trade_no == tn)).isSome = true
        · rw [if_pos hf]
          rcases updateFirst_get? (fun o => o.trade_no == tn)
            (fun o => { o with status := "PAID",
                               token := some (issueToken pid tn now),
                               paid_at := some now,
                               amount := if truthyI (Lowdb.resolveAmount d)
                                         then Lowdb.resolveAmount d else o.amount })
            a.orders i o hi with h | h
          · exact ⟨o, h, hp, rfl⟩
          · exact ⟨_, h, rfl, rfl⟩
        · rw [if_neg hf]
          exact ⟨o, get?_append_left _ _ i o hi, hp, rfl⟩

/-- C7: PAID is terminal: along any sequence of operations, a stored
order that is PAID keeps status PAID (and its trade_no) in every
later state; no operation resets it to PENDING or anything else. -/
theorem C7_paid_terminal (a b : DB) (h : Relation.ReflTransGen Lowdb.Step a b)
    (i : Nat) (o : Order) (hi : a.orders.get? i = some o) (hp : o.status = "PAID") :
    entryHolds b i (fun o2 => o2.status = "PAID" ∧ o2.trade_no = o.trade_no) := by
  have main : ∃ o2, b.orders.get? i = some o2 ∧ o2.status = "PAID" ∧
      o2.trade_no = o.trade_no := by
    induction h with
    | refl => exact ⟨o, hi, hp, rfl⟩
    | tail h1 h2 ih =>
      obtain ⟨o2, h2i, h2p, h2t⟩ := ih
      obtain ⟨o3, h3i, h3p, h3t⟩ := step_paid_stays _ _ h2 i o2 h2i h2p
      exact ⟨o3, h3i, h3p, h3t.trans h2t⟩
  obtain ⟨o2, h2i, h2p, h2t⟩ := main
  unfold entryHolds
  rw [h2i]
  exact ⟨h2p, h2t⟩

/-- Witness for C7: a redelivered payment callback leaves the already
PAID order T in PAID with the same trade_no. -/
theorem C7_paid_terminal_witness :
    entryHolds
      (Lowdb.paymentNotify
        { orders := [{ trade_no := "T", post_id := "p1", amount := some 199,
                       status := "PAID",
                       token := some { postId := "p1", trade_no := "T", iat := 1 },
                       created_at := 0, paid_at := some 1 }] }
        { trade_no := some "T", post_id := some "p2" } 5).1 0
      (fun o2 => o2.status = "PAID" ∧ o2.trade_no = "T") :=
  C7_paid_terminal
    { orders := [{ trade_no := "T", post_id := "p1", amount := some 199,
                   status := "PAID",
                   token := some { postId := "p1", trade_no := "T", iat := 1 },
                   created_at := 0, paid_at := some 1 }] }
    _
    (Relation.ReflTransGen.single (Lowdb.Step.notify _ { trade_no := some "T", post_id := some "p2" } 5))
    0
    { trade_no := "T", post_id := "p1", amount := some 199, status := "PAID",
      token := some { postId := "p1", trade_no := "T", iat := 1 },
      created_at := 0, paid_at := some 1 }
    rfl rfl

/-- C6 counterexample: in the app.js variant, payment-notify on the
EXISTING order (T, post_id A) carrying post_id B overwrites the
stored post_id with B (app.js line 83: if (post_id) order.post_id =
post_id), so mark-paid on an existing order does not leave post_id
unchanged. -/
theorem C6_counterexample_simple_overwrites_post_id :
    (Simple.paymentNotify
        { orders := [{ trade_no := "T", post_id := "A", amount := 0, paid := false }] }
        (some "T") (some "B") none).1 =
      { orders := [{ trade_no := "T", post_id := "B", amount := 0, paid := true }] } ∧
    ("A" : String) ≠ "B" := by
  exact ⟨rfl, by decide⟩

/-- C6 amended: in the part_001 lowdb variant (and likewise the
sqlite variant), payment-notify never changes the post_id or the
trade_no of any record already in the store — the notified post_id
only lands in a record on the auto-create path; in the app.js /
part_000 variants, by contrast, a truthy notified post_id overwrites
the stored one. -/
theorem C6_lowdb_markpaid_keeps_post_id (db : DB) (d : NotifyData) (now : Nat)
    (i : Nat) (o : Order) (hi : db.orders.get? i = some o) :
    entryHolds (Lowdb.paymentNotify db d now).1 i
      (fun o2 => o2.post_id = o.post_id ∧ o2.trade_no = o.trade_no) := by
  have main : ∃ o2, (Lowdb.paymentNotify db d now).1.orders.get? i = some o2 ∧
      o2.post_id = o.post_id ∧ o2.trade_no = o.trade_no := by
    unfold Lowdb.paymentNotify
    cases htn : Lowdb.resolveTradeNo d with
    | none => exact ⟨o, hi, rfl, rfl⟩
    | some tn =>
      cases hpid : Lowdb.resolvePostId d with
      | none => exact ⟨o, hi, rfl, rfl⟩
      | some pid =>
        dsimp only
        by_cases hf : (db.orders.find? (fun o => o.trade_no == tn)).isSome = true
        · rw [if_pos hf]
          rcases updateFirst_get? (fun o => o.trade_no == tn)
            (fun o => { o with status := "PAID",
                               token := some (issueToken pid tn now),
                               paid_at := some now,
                               amount := if truthyI (Lowdb.resolveAmount d)
                                         then Lowdb.resolveAmount d else o.amount })
            db.orders i o hi with h | h
          · exact ⟨o, h, rfl, rfl⟩
          · exact ⟨_, h, rfl, rfl⟩
        · rw [if_neg hf]
          exact ⟨o, get?_append_left _ _ i o hi, rfl, rfl⟩
  obtain ⟨o2, h2i, h2p, h2t⟩ := main
  unfold entryHolds
  rw [h2i]
  exact ⟨h2p, h2t⟩

/-- Witness for the amended C6: a callback for existing order T
naming post_id B leaves the stored post_id A in place in the lowdb
variant. -/
theorem C6_lowdb_markpaid_keeps_post_id_witness :
    entryHolds
      (Lowdb.paymentNotify
        { orders := [{ trade_no := "T", post_id := "A", amount := some 199,
                       status := "PENDING", token := none, created_at := 0,
                       paid_at := none }] }
        { trade_no := some "T", post_id := some "B" } 3).1 0
      (fun o2 => o2.post_id = "A" ∧ o2.trade_no = "T") :=
  C6_lowdb_markpaid_keeps_post_id
    { orders := [{ trade_no := "T", post_id := "A", amount := some 199,
                   status := "PENDING", token := none, created_at := 0,
                   paid_at := none }] }
    { trade_no := some "T", post_id := some "B" } 3 0
    { trade_no := "T", post_id := "A", amount := some 199, status := "PENDING",
      token := none, created_at := 0, paid_at := none }
    rfl

/-- C4 counterexample: in the app.js variant a payment notification
whose trade_no matches no stored order answers 404 order-not-found
and creates nothing, and the subsequent poll still reports
paid:false. -/
theorem C4_counterexample_simple_404 :
    Simple.paymentNotify { orders := [] } (some "T1") (some "p1") none =
      ({ orders := [] }, { code := 404, body := "order not found" }) ∧
    Simple.checkPayment { orders := [] } (some "T1") 2 =
      CheckResp.payload false none none := by
  exact ⟨rfl, rfl⟩

/-- C4 amended: in the part_001 lowdb variant (and likewise the
sqlite variant) a notification whose resolved trade identifier
matches no stored order creates one directly in PAID with the
notified post_id and a minted token, answers OK, and a subsequent
check-payment for that trade_no reports paid:true with that token;
the app.js / part_000 variants instead answer 404 and create
nothing. -/
theorem C4_lowdb_notify_auto_creates_paid (db : DB) (d : NotifyData) (now : Nat)
    (tn pid : String)
    (htn : Lowdb.resolveTradeNo d = some tn)
    (hpid : Lowdb.resolvePostId d = some pid)
    (hnone : db.orders.find? (fun o => o.trade_no == tn) = none) :
    (Lowdb.paymentNotify db d now).2 = { code := 200, body := "OK" } ∧
    (Lowdb.paymentNotify db d now).1.orders =
      db.orders ++ [{ trade_no := tn, post_id := pid,
                      amount := Lowdb.resolveAmount d, status := "PAID",
                      token := some (issueToken pid tn now), created_at := now,
                      paid_at := some now }] ∧
    Lowdb.checkPayment (Lowdb.paymentNotify db d now).1 (some tn) =
      CheckResp.payload true (some (issueToken pid tn now)) (some pid) := by
  have hres : Lowdb.paymentNotify db d now =
      ({ orders := db.orders ++ [{ trade_no := tn, post_id := pid,
                                   amount := Lowdb.resolveAmount d, status := "PAID",
                                   token := some (issueToken pid tn now),
                                   created_at := now, paid_at := some now }] },
       { code := 200, body := "OK" }) := by
    unfold Lowdb.paymentNotify
    rw [htn, hpid]
    dsimp only
    rw [hnone]
    rw [if_neg (by simp)]
  have htn2 : or3S d.trade_no d.out_trade_no d.transaction_id = some tn := htn
  have hne : ¬(tn.data.isEmpty = true) := by
    rw [or3S_isEmpty_false htn2]
    exact Bool.false_ne_true
  refine ⟨by rw [hres], by rw [hres], ?_⟩
  rw [hres]
  unfold Lowdb.checkPayment
  dsimp only
  rw [if_neg hne, find?_append_none _ _ _ hnone]
  rw [if_pos (by simp)]
  dsimp only
  rw [if_pos (by decide)]

/-- Witness for the amended C4 on the empty store. -/
theorem C4_lowdb_notify_auto_creates_paid_witness :
    (Lowdb.paymentNotify { orders := [] }
        { trade_no := some "T", post_id := some "p1" } 7).2 =
      { code := 200, body := "OK" } ∧
    (Lowdb.paymentNotify { orders := [] }
        { trade_no := some "T", post_id := some "p1" } 7).1.orders =
      [] ++ [{ trade_no := "T", post_id := "p1",
               amount := Lowdb.resolveAmount { trade_no := some "T", post_id := some "p1" },
               status := "PAID", token := some (issueToken "p1" "T" 7),
               created_at := 7, paid_at := some 7 }] ∧
    Lowdb.checkPayment
        (Lowdb.paymentNotify { orders := [] }
          { trade_no := some "T", post_id := some "p1" } 7).1 (some "T") =
      CheckResp.payload true (some (issueToken "p1" "T" 7)) (some "p1") :=
  C4_lowdb_notify_auto_creates_paid { orders := [] }
    { trade_no := some "T", post_id := some "p1" } 7 "T" "p1"
    (by decide) (by decide) rfl

/-- C2 counterexample: in the part_001 lowdb variant, an order made
PAID by a first notification at instant 1 is rewritten by the second,
identical notification at instant 2 — the stored token is re-minted
with the later issuance instant and paid_at moves from 1 to 2, so the
second call does not leave token and paid_at as the first call set
them, although it does answer OK. -/
theorem C2_counterexample_lowdb_rewrites_paid_at :
    (Lowdb.paymentNotify { orders := [] }
        { trade_no := some "T", post_id := some "p1" } 1).1.orders =
      [{ trade_no := "T", post_id := "p1", amount := none, status := "PAID",
         token := some { postId := "p1", trade_no := "T", iat := 1 },
         created_at := 1, paid_at := some 1 }] ∧
    (Lowdb.paymentNotify
        (Lowdb.paymentNotify { orders := [] }
          { trade_no := some "T", post_id := some "p1" } 1).1
        { trade_no := some "T", post_id := some "p1" } 2).2 =
      { code := 200, body := "OK" } ∧
    (Lowdb.paymentNotify
        (Lowdb.paymentNotify { orders := [] }
          { trade_no := some "T", post_id := some "p1" } 1).1
        { trade_no := some "T", post_id := some "p1" } 2).1.orders =
      [{ trade_no := "T", post_id := "p1", amount := none, status := "PAID",
         token := some { postId := "p1", trade_no := "T", iat := 2 },
         created_at := 1, paid_at := some 2 }] := by
  exact ⟨rfl, rfl, rfl⟩

/-- C2 amended: the sqlite variant is idempotent exactly as claimed —
a notification for an order already in PAID answers OK and leaves the
whole store untouched; in the lowdb variant the repeated call still
answers OK and the order stays PAID with its trade_no and post_id,
but its token is re-minted and its paid_at is overwritten with the
second notification's instant. -/
theorem C2_markpaid_idempotence_by_variant
    (dbQ : DB) (dQ : NotifyData) (nowQ : Nat) (tnQ pidQ : String) (rQ : Order)
    (htnQ : Sqlite.resolveTradeNo dQ = some tnQ)
    (hpidQ : Sqlite.resolvePostId dQ = some pidQ)
    (hfQ : dbQ.orders.find? (fun o => o.trade_no == tnQ) = some rQ)
    (hrQ : rQ.status = "PAID")
    (dbL : DB) (dL : NotifyData) (nowL : Nat) (tnL pidL : String) (oL : Order)
    (htnL : Lowdb.resolveTradeNo dL = some tnL)
    (hpidL : Lowdb.resolvePostId dL = some pidL)
    (hfL : dbL.orders.find? (fun o => o.trade_no == tnL) = some oL)
    (_hoL : oL.status = "PAID") :
    Sqlite.paymentNotify dbQ dQ nowQ = (dbQ, { code := 200, body := "OK" }) ∧
    (Lowdb.paymentNotify dbL dL nowL).2 = { code := 200, body := "OK" } ∧
    (Lowdb.paymentNotify dbL dL nowL).1.orders.find? (fun o => o.trade_no == tnL) =
      some { oL with status := "PAID", token := some (issueToken pidL tnL nowL),
                     paid_at := some nowL,
                     amount := if truthyI (Lowdb.resolveAmount dL)
                               then Lowdb.resolveAmount dL else oL.amount } := by
  have hQ : Sqlite.paymentNotify dbQ dQ nowQ = (dbQ, { code := 200, body := "OK" }) := by
    unfold Sqlite.paymentNotify
    rw [htnQ, hpidQ]
    dsimp only
    rw [hfQ]
    dsimp only
    rw [if_pos (by rw [hrQ]; decide)]
  have hLsome : (dbL.orders.find? (fun o => o.trade_no == tnL)).isSome = true := by
    rw [hfL]
    rfl
  have hpoL := List.find?_some hfL
  refine ⟨hQ, ?_, ?_⟩
  · unfold Lowdb.paymentNotify
    rw [htnL, hpidL]
    dsimp only
    rw [if_pos hLsome]
  · unfold Lowdb.paymentNotify
    rw [htnL, hpidL]
    dsimp only
    rw [if_pos hLsome]
    exact find?_updateFirst_self _ _ _ _ hfL hpoL

/-- Witness for the amended C2: the sqlite store with PAID order T is
untouched by a redelivery; the lowdb store with PAID order T answers
OK and holds the re-minted record. -/
theorem C2_markpaid_idempotence_by_variant_witness :
    Sqlite.paymentNotify
        { orders := [{ trade_no := "T", post_id := "p1", amount := none,
                       status := "PAID",
                       token := some { postId := "p1", trade_no := "T", iat := 1 },
                       created_at := 1, paid_at := some 1 }] }
        { trade_no := some "T", post_id := some "p1" } 2 =
      ({ orders := [{ trade_no := "T", post_id := "p1", amount := none,
                      status := "PAID",
                      token := some { postId := "p1", trade_no := "T", iat := 1 },
                      created_at := 1, paid_at := some 1 }] },
       { code := 200, body := "OK" }) ∧
    (Lowdb.paymentNotify
        { orders := [{ trade_no := "T", post_id := "p1", amount := none,
                       status := "PAID",
                       token := some { postId := "p1", trade_no := "T", iat := 1 },
                       created_at := 1, paid_at := some 1 }] }
        { trade_no := some "T", post_id := some "p1" } 2).2 =
      { code := 200, body := "OK" } ∧
    (Lowdb.paymentNotify
        { orders := [{ trade_no := "T", post_id := "p1", amount := none,
                       status := "PAID",
                       token := some { postId := "p1", trade_no := "T", iat := 1 },
                       created_at := 1, paid_at := some 1 }] }
        { trade_no := some "T", post_id := some "p1" } 2).1.orders.find?
        (fun o => o.trade_no == "T") =
      some { trade_no := "T", post_id := "p1", amount := none, status := "PAID",
             token := some { postId := "p1", trade_no := "T", iat := 2 },
             created_at := 1, paid_at := some 2 } := by
  have h := C2_markpaid_idempotence_by_variant
    { orders := [{ trade_no := "T", post_id := "p1", amount := none,
                   status := "PAID",
                   token := some { postId := "p1", trade_no := "T", iat := 1 },
                   created_at := 1, paid_at := some 1 }] }
    { trade_no := some "T", post_id := some "p1" } 2 "T" "p1"
    { trade_no := "T", post_id := "p1", amount := none, status := "PAID",
      token := some { postId := "p1", trade_no := "T", iat := 1 },
      created_at := 1, paid_at := some 1 }
    (by decide) (by decide) rfl rfl
    { orders := [{ trade_no := "T", post_id := "p1", amount := none,
                   status := "PAID",
                   token := some { postId := "p1", trade_no := "T", iat := 1 },
                   created_at := 1, paid_at := some 1 }] }
    { trade_no := some "T", post_id := some "p1" } 2 "T" "p1"
    { trade_no := "T", post_id := "p1", amount := none, status := "PAID",
      token := some { postId := "p1", trade_no := "T", iat := 1 },
      created_at := 1, paid_at := some 1 }
    (by decide) (by decide) rfl rfl
  exact ⟨h.1, h.2.1, h.2.2.trans (by decide)⟩

end Pay
